import Mathlib

/-!
# Verification of the avx-turbo measurement harness (src/avx-turbo.cpp)

This file is a shallow embedding, in Lean 4, of the measurement harness of
avx-turbo: the ISA-tagged kernel registry and test filtering
(`should_run` / `filter_tests`), the APERF/MPERF effective-frequency probe
(`aperf_ghz`), the overhead-cancellation timing loop (`run_test`), the
RDTSC tick-to-nanosecond conversion (`RdtscClock.to_nanos`), and the parts
of `main` that validate arguments and gate ratio reporting.

Modelling conventions:
* machine integers (`uint64_t`) are `Nat` with wrap-around subtraction made
  explicit through `sub64` (reduction modulo 2^64);
* C `assert` failures and fatal misuse are `Option.none`;
* hardware reads (the TSC via `CLOCK::now()`, the MSRs read by the probe)
  are modelled as abstract traces `Nat → Nat` giving the value returned by
  the k-th read of that counter, since the values themselves come from
  hardware outside the program;
* the timed kernels (asm-methods.asm) are opaque: a kernel call has no
  observable effect in the embedding other than the passage of time, which
  is carried entirely by the tick trace;
* C++ `double` arithmetic on ratios is modelled with exact rationals `ℚ`.
-/

namespace AvxTurbo

/-! ## ISA flags and the kernel registry (avx-turbo.cpp lines 35-72) -/

/-- `enum ISA { BASE = 1, AVX2 = 2, AVX512 = 4 }`, used as bit flags. -/
def BASE : Nat := 1

/-- AVX2 ISA flag (= 2). -/
def AVX2 : Nat := 2

/-- AVX512 ISA flag (= 4). -/
def AVX512 : Nat := 4

/-- The four timed kernels declared via `FUNCS_X` and defined in
asm-methods.asm.  They are opaque to the harness; we model a function
pointer as a tag identifying which kernel it points to. -/
inductive KernelFn
  | scalar_iadd
  | avx128_iadd
  | avx256_iadd
  | avx512_iadd
deriving DecidableEq, Repr

/-- `struct test_func { cal_f* func; const char* id; const char* description; ISA isa; }`. -/
structure test_func where
  func : KernelFn
  id : String
  description : String
  isa : Nat
deriving DecidableEq, Repr

/-- `const test_func ALL_FUNCS[]`, produced by expanding `FUNCS_X(MAKE_STRUCT)`:
the id string is the stringized function name. -/
def ALL_FUNCS : List test_func :=
  [ ⟨KernelFn.scalar_iadd, "scalar_iadd", "Scalar integer adds", BASE⟩,
    ⟨KernelFn.avx128_iadd, "avx128_iadd", "128-bit integer adds", AVX2⟩,
    ⟨KernelFn.avx256_iadd, "avx256_iadd", "256-bit integer adds", AVX2⟩,
    ⟨KernelFn.avx512_iadd, "avx512_iadd", "512-bit integer adds", AVX512⟩ ]

/-- `should_run` (avx-turbo.cpp lines 256-259):
`(t.isa & isas_supported) && (!arg_focus || arg_focus.Get() == t.id)`.
`arg_focus` is the optional `--test` focus identifier; an absent flag
converts to `false`. -/
def should_run (t : test_func) (isas_supported : Nat) (arg_focus : Option String) : Bool :=
  (t.isa &&& isas_supported != 0) && (arg_focus == none || arg_focus == some t.id)

/-- `filter_tests` (avx-turbo.cpp lines 261-269): iterates over `ALL_FUNCS`
in order, `push_back`-ing every descriptor for which `should_run` holds.
The loop is modelled by a left fold appending at the back. -/
def filter_tests (isas_supported : Nat) (arg_focus : Option String) : List test_func :=
  ALL_FUNCS.foldl (fun ret t => if should_run t isas_supported arg_focus then ret ++ [t] else ret) []

/-! ## 64-bit wrap-around arithmetic -/

/-- 2^64, the modulus of `uint64_t` arithmetic. -/
def U64 : Nat := 2 ^ 64

/-- `uint64_t` subtraction `x - y` with wrap-around, on arbitrary naturals. -/
def sub64 (x y : Nat) : Nat := (U64 + x % U64 - y % U64) % U64

/-! ## The APERF/MPERF effective-frequency probe (avx-turbo.cpp lines 150-212)

`aperf_ghz` reads three free-running counters: MPERF (nominal rate),
APERF (actual rate), and the TSC.  The reads themselves are hardware
operations; a transition takes the three freshly-read values as arguments.
A C `assert` failure is modelled as `none`. -/

/-- The probe's `enum { STARTED, STOPPED } state`. -/
inductive ProbeState
  | STARTED
  | STOPPED
deriving DecidableEq, Repr

/-- `struct aperf_ghz`: the three stored counter fields and the state.
After `start` the fields hold absolute readings; after `stop` they hold
deltas. -/
structure aperf_ghz where
  mperf_value : Nat
  aperf_value : Nat
  tsc_value : Nat
  state : ProbeState
deriving DecidableEq, Repr

/-- The constructor `aperf_ghz() : mperf_value(0), aperf_value(0), tsc_value(0), state(STOPPED)`. -/
def aperf_ghz.init : aperf_ghz :=
  ⟨0, 0, 0, ProbeState.STOPPED⟩

/-- `aperf_ghz::start()` (lines 173-181): asserts `state == STOPPED`, sets the
state to STARTED and stores the three freshly read counter values
`m` (MPERF), `a` (APERF), `t` (TSC). -/
def aperf_ghz.start (p : aperf_ghz) (m a t : Nat) : Option aperf_ghz :=
  if p.state = ProbeState.STOPPED then
    some ⟨m, a, t, ProbeState.STARTED⟩
  else
    none

/-- `aperf_ghz::stop()` (lines 183-191): asserts `state == STARTED`, overwrites
each stored field with (freshly read value) − (stored value) in `uint64_t`
arithmetic, and sets the state to STOPPED. -/
def aperf_ghz.stop (p : aperf_ghz) (m a t : Nat) : Option aperf_ghz :=
  if p.state = ProbeState.STARTED then
    some ⟨sub64 m p.mperf_value, sub64 a p.aperf_value, sub64 t p.tsc_value, ProbeState.STOPPED⟩
  else
    none

/-- `aperf_ghz::am_ratio()` (lines 194-200): asserts `state == STOPPED` and
`mperf_value != 0 && aperf_value != 0`, then returns
`(double)aperf_value / mperf_value` (exact division in the model). -/
def aperf_ghz.am_ratio (p : aperf_ghz) : Option ℚ :=
  if p.state = ProbeState.STOPPED ∧ p.mperf_value ≠ 0 ∧ p.aperf_value ≠ 0 then
    some ((p.aperf_value : ℚ) / (p.mperf_value : ℚ))
  else
    none

/-- `aperf_ghz::mt_ratio()` (lines 203-209): asserts `state == STOPPED` and
`mperf_value != 0 && tsc_value != 0`, then returns
`(double)mperf_value / tsc_value` (exact division in the model). -/
def aperf_ghz.mt_ratio (p : aperf_ghz) : Option ℚ :=
  if p.state = ProbeState.STOPPED ∧ p.mperf_value ≠ 0 ∧ p.tsc_value ≠ 0 then
    some ((p.mperf_value : ℚ) / (p.tsc_value : ℚ))
  else
    none

/-! ## Probe selection and ratio gating in `main` (avx-turbo.cpp lines 284-309)

`main` computes `bool is_root = (geteuid() == 0); bool use_aperf = is_root;`
and selects the outer timer with
`outer_timer& outer = use_aperf ? aperf_timer : dummy_outer::dummy;`.
Per measured test it then records
`aperf_am[i] = use_aperf ? aperf_timer.am_ratio() : 0.0;` and
`aperf_mt[i] = use_aperf ? aperf_timer.mt_ratio() : 0.0;`.
The startup detection (`geteuid() == 0`) is an external call, modelled as
the boolean input `is_root`. -/

/-- `bool use_aperf = is_root;` (line 285). -/
def main_use_aperf (is_root : Bool) : Bool := is_root

/-- Which concrete `outer_timer` implementation `main` binds (line 294). -/
inductive SelectedTimer
  | dummy
  | aperf
deriving DecidableEq, Repr

/-- `outer_timer& outer = use_aperf ? static_cast<outer_timer&>(aperf_timer) : dummy_outer::dummy;`. -/
def main_select_timer (use_aperf : Bool) : SelectedTimer :=
  if use_aperf then SelectedTimer.aperf else SelectedTimer.dummy

/-- The per-test ratio pair recorded by `main` (lines 308-309); the ratio
accessors are invoked only when `use_aperf` holds, otherwise `0.0` is
stored.  An assertion failure inside an accessor propagates as `none`. -/
def main_row_ratios (use_aperf : Bool) (p : aperf_ghz) : Option (ℚ × ℚ) :=
  match (if use_aperf then p.am_ratio else some 0),
        (if use_aperf then p.mt_ratio else some 0) with
  | some am, some mt => some (am, mt)
  | _, _ => none

/-! ## Iteration-count validation in `main` (avx-turbo.cpp lines 274-282)

`main` parses the arguments and immediately checks
`if (arg_iters.Get() % 100 != 0) { printf("ITERS must be a multiple of 100\n"); exit(EXIT_FAILURE); }`
before any of the privilege check, CPU pinning, capability detection, TSC
calibration, warmup run or measurements.  The observable behaviour of
`main` after argument parsing is abstracted as a list of actions. -/

/-- The externally observable actions `main` performs, in order, at the
granularity relevant to validation: printing, exiting with
`EXIT_FAILURE` (= 1), pinning to a CPU, detecting ISA capabilities,
calibrating the TSC (first hardware timer use), running a timed
measurement, and printing the report table. -/
inductive MainAction
  | printMsg (s : String)
  | exitFailure
  | pinCpu (cpu : Nat)
  | detectIsas
  | calibrateTsc
  | runMeasurement (id : String)
  | report
deriving DecidableEq, Repr

/-- Actions that touch hardware or perform timing. -/
def MainAction.is_hardware : MainAction → Bool
  | MainAction.pinCpu _ => true
  | MainAction.detectIsas => true
  | MainAction.calibrateTsc => true
  | MainAction.runMeasurement _ => true
  | _ => false

/-- The action trace of `main` (lines 274-337) after successful argument
parsing, given the iteration count, the privilege bit, the detected
capability set and the focus filter.  On an invalid iteration count the
trace is the diagnostic plus `exit(EXIT_FAILURE)`; otherwise `main` prints
the banner, pins to CPU 0, detects ISAs, calibrates the TSC, runs the
throwaway warmup measurement on `ALL_FUNCS[0]`, measures each filtered
test, and reports. -/
def main_actions (iters : Nat) (is_root : Bool) (isas : Nat) (focus : Option String) :
    List MainAction :=
  if iters % 100 ≠ 0 then
    [MainAction.printMsg "ITERS must be a multiple of 100", MainAction.exitFailure]
  else
    [MainAction.printMsg (if is_root then "Running as root     : [YES]"
                          else "Running as root     : [NO ]"),
     MainAction.pinCpu 0, MainAction.detectIsas, MainAction.calibrateTsc,
     MainAction.runMeasurement "warmup"]
    ++ (filter_tests isas focus).map (fun t => MainAction.runMeasurement t.id)
    ++ [MainAction.report]

/-- The process exit status: `EXIT_FAILURE` (1) on an invalid iteration
count, `EXIT_SUCCESS` (0) otherwise. -/
def main_exit_code (iters : Nat) : Nat :=
  if iters % 100 ≠ 0 then 1 else 0

/-! ## RdtscClock tick→nanosecond conversion (avx-turbo.cpp lines 107-129)

`RdtscClock::to_nanos` is
`static double tsc_to_nanos = 1000000000.0 / tsc_freq(); return diff * tsc_to_nanos;`.
The function-local `static` is initialized on the first call and kept for
the process lifetime; the calibrated frequency `tsc_freq()` is an external
service (tsc-support.hpp) modelled as the input `freq`, stable across the
process per the calibration contract.  The `double` arithmetic is modelled
exactly in `ℚ`; the implicit conversion of the product back to `uint64_t`
truncates toward zero (the value is nonnegative, so this is the floor). -/

/-- The state of the function-local `static double tsc_to_nanos`:
`none` before the first call to `to_nanos`. -/
structure TscCache where
  tsc_to_nanos : Option ℚ
deriving DecidableEq, Repr

namespace RdtscClock

/-- The scale factor `1000000000.0 / tsc_freq()`. -/
def scale_factor (freq : Nat) : ℚ := (1000000000 : ℚ) / (freq : ℚ)

/-- `RdtscClock::to_nanos` (lines 119-122) with the lazy `static`
initialization made explicit: if the cache is empty the scale factor is
computed and stored, otherwise the cached value is used unchanged; the
returned nanosecond count is `diff * tsc_to_nanos` truncated to an
integer. -/
def to_nanos (freq : Nat) (c : TscCache) (diff : Nat) : Nat × TscCache :=
  match c.tsc_to_nanos with
  | some s => ((⌊(diff : ℚ) * s⌋).toNat, c)
  | none => ((⌊(diff : ℚ) * scale_factor freq⌋).toNat, ⟨some (scale_factor freq)⟩)

end RdtscClock

/-! ## The overhead-cancellation timer `run_test` (avx-turbo.cpp lines 222-247)

`run_test<CLOCK, TRIES = 101, WARMUP = 3>(cal_f* func, size_t iters, outer_timer& outer)`
asserts `iters % 100 == 0`, then performs `WARMUP + 1` outer passes; each
pass calls `outer.start()`, runs `TRIES` trials overwriting
`results[0..TRIES-1]`, and calls `outer.stop()`.  Each trial records
`t0 = CLOCK::now()`, calls `func(iters)`, records `t1`, calls
`func(iters * 2)`, records `t2`, and stores `(t2 - t1) - (t1 - t0)`.
Afterwards the results are converted with `CLOCK::to_nanos` and reduced to
a median, and `iters / median` is returned.

Embedding: the k-th call of `CLOCK::now()` during the run returns
`ticks k`; the kernel calls are opaque (their only observable effect, the
passage of time, is carried by the tick trace); `CLOCK::to_nanos` is an
abstract conversion `Nat → Nat`; the `outer_timer` virtual interface is a
pair of fallible transition functions on an abstract timer state, and the
sequence of calls `run_test` makes on it is recorded as a trace of
events. -/

/-- The `TRIES` template parameter at its only instantiation (101). -/
def TRIES : Nat := 101

/-- The `WARMUP` template parameter at its only instantiation (3). -/
def WARMUP : Nat := 3

/-- The interface `struct outer_timer { virtual void start(); virtual void stop(); }`
over an abstract timer state; `none` models an assertion failure inside
the virtual call. -/
structure outer_timer (σ : Type) where
  start : σ → Option σ
  stop : σ → Option σ

/-- `struct dummy_outer : outer_timer` whose `start`/`stop` do nothing. -/
def dummy_outer : outer_timer Unit :=
  ⟨fun s => some s, fun s => some s⟩

/-- The `aperf_ghz` probe viewed as an `outer_timer`.  The second state
component counts the probe's start/stop events so far; the event with
index `k` reads MPERF = `mtr k`, APERF = `atr k`, TSC = `ttr k` (each
`start` and each `stop` reads all three counters once). -/
def aperf_outer (mtr atr ttr : Nat → Nat) : outer_timer (aperf_ghz × Nat) :=
  ⟨fun pk => (aperf_ghz.start pk.1 (mtr pk.2) (atr pk.2) (ttr pk.2)).map (fun p => (p, pk.2 + 1)),
   fun pk => (aperf_ghz.stop pk.1 (mtr pk.2) (atr pk.2) (ttr pk.2)).map (fun p => (p, pk.2 + 1))⟩

/-- The calls `run_test` makes on its outer timer, plus one event per
timed trial. -/
inductive TimerEvent
  | tstart
  | trial
  | tstop
deriving DecidableEq, Repr

/-- The delta stored by the trial whose first `CLOCK::now()` call is the
i-th of the run: `t0 = ticks i`, `t1 = ticks (i+1)`, `t2 = ticks (i+2)`,
stored value `(t2 - t1) - (t1 - t0)` in `uint64_t` arithmetic. -/
def trial_delta (ticks : Nat → Nat) (i : Nat) : Nat :=
  sub64 (sub64 (ticks (i + 2)) (ticks (i + 1))) (sub64 (ticks (i + 1)) (ticks i))

/-- The inner `for (r = 0; r < TRIES; r++)` loop of `run_test`: `cnt`
trials remain, the next one is trial `r`, and `base` is the index of the
first `CLOCK::now()` call of the enclosing pass.  Each trial overwrites
`results[r]`. -/
def inner_loop (ticks : Nat → Nat) (base r : Nat) (cnt : Nat) (results : List Nat)
    (evs : List TimerEvent) : List Nat × List TimerEvent :=
  match cnt with
  | 0 => (results, evs)
  | cnt' + 1 =>
    inner_loop ticks base (r + 1) cnt'
      (results.set r (trial_delta ticks (base + 3 * r)))
      (evs ++ [TimerEvent.trial])

/-- The outer `for (w = 0; w < WARMUP + 1; w++)` loop of `run_test`:
`wrem` passes remain and `w` passes are already done.  Each pass calls
`outer.start()`, runs `TR` trials (the pass's first `CLOCK::now()` call
has index `3 * TR * w`), and calls `outer.stop()`. -/
def run_passes {σ : Type} (T : outer_timer σ) (ticks : Nat → Nat) (TR : Nat) :
    Nat → Nat → List Nat → σ → List TimerEvent → Option (List Nat × σ × List TimerEvent)
  | 0, _, results, s, evs => some (results, s, evs)
  | wrem + 1, w, results, s, evs =>
    match T.start s with
    | none => none
    | some s1 =>
      match inner_loop ticks (3 * TR * w) 0 TR results (evs ++ [TimerEvent.tstart]) with
      | (results1, evs1) =>
        match T.stop s1 with
        | none => none
        | some s2 => run_passes T ticks TR wrem (w + 1) results1 s2 (evs1 ++ [TimerEvent.tstop])

/-- Modelled from the spec: the Statistics Reducer
(`get_stats` / `DescriptiveStats::getMedian` from stats.hpp, which is not
among the sources) — "given a sequence of nanosecond durations, returns at
minimum the median".  The median of a sorted copy: the middle element for
odd length, the mean of the two middle elements for even length. -/
def median (l : List Nat) : ℚ :=
  if l.length % 2 = 1 then
    (((List.insertionSort (fun a b => a ≤ b) l).getD (l.length / 2) 0 : Nat) : ℚ)
  else if l.length = 0 then 0
  else ((((List.insertionSort (fun a b => a ≤ b) l).getD (l.length / 2 - 1) 0 : Nat) : ℚ)
    + (((List.insertionSort (fun a b => a ≤ b) l).getD (l.length / 2) 0 : Nat) : ℚ)) / 2

/-- `run_test` itself.  The `results` array (uninitialized in the C++; the
model starts it at zeros, and the theorems show every slot is overwritten
before use) is threaded through the passes; afterwards the deltas are
converted with `to_nanos_f` and the returned figure is
`iters / median`. -/
def run_test {σ : Type} (T : outer_timer σ) (ticks to_nanos_f : Nat → Nat)
    (TR WARM : Nat) (func : KernelFn) (iters : Nat) (s : σ) :
    Option (ℚ × σ × List TimerEvent) :=
  if iters % 100 = 0 then
    match run_passes T ticks TR (WARM + 1) 0 (List.replicate TR 0) s [] with
    | none => none
    | some (results, s1, evs) =>
      some ((iters : ℚ) / median (results.map to_nanos_f), s1, evs)
  else
    none

/-- The deltas written by pass `w` (passes are numbered from 0): trial `r`
of pass `w` starts at the `(3 * TR * w + 3 * r)`-th `CLOCK::now()` call of
the run. -/
def pass_deltas (ticks : Nat → Nat) (TR w : Nat) : List Nat :=
  (List.range TR).map (fun r => trial_delta ticks (3 * TR * w + 3 * r))

/-- The timer-event trace of one pass: one `start`, `TR` trials, one
`stop`. -/
def pass_events (TR : Nat) : List TimerEvent :=
  TimerEvent.tstart :: (List.replicate TR TimerEvent.trial ++ [TimerEvent.tstop])

/-- The probe state produced by a single `start()`/`stop()` bracket whose
`start` is probe event `k` and whose `stop` is probe event `k + 1`: every
field holds the delta of its counter across the bracket, and the state is
STOPPED. -/
def aperf_bracket (mtr atr ttr : Nat → Nat) (k : Nat) : aperf_ghz :=
  ⟨sub64 (mtr (k + 1)) (mtr k), sub64 (atr (k + 1)) (atr k), sub64 (ttr (k + 1)) (ttr k),
   ProbeState.STOPPED⟩

/-- The tick trace induced by a kernel whose execution time at iteration
count `n` is exactly `T n`, timed by a zero-overhead clock: within each
trial, `t1 - t0 = T iters` (the first kernel call) and
`t2 - t1 = T (2 * iters)` (the second), and the clock reads themselves
take no time.  This instantiates, for the C9 analysis, the spec's model of
a kernel that "executes for a time proportional to the count". -/
def kernel_ticks (T : Nat → Nat) (iters k : Nat) : Nat :=
  (k / 3) * (T iters + T (2 * iters)) +
    (if k % 3 = 0 then 0 else if k % 3 = 1 then T iters else T iters + T (2 * iters))

/-! ## Basic facts about filtering -/

theorem foldl_pushback_eq_filter {α : Type} (p : α → Bool) (l acc : List α) :
    l.foldl (fun ret t => if p t then ret ++ [t] else ret) acc = acc ++ l.filter p := by
  induction l generalizing acc with
  | nil => simp
  | cons x xs ih =>
    by_cases h : p x
    · simp [List.foldl_cons, h, ih, List.filter_cons]
    · simp [List.foldl_cons, h, ih, List.filter_cons]

/-- The `push_back` loop of `filter_tests` is an order-preserving filter of
the registry. -/
theorem filter_tests_eq_filter (isas_supported : Nat) (arg_focus : Option String) :
    filter_tests isas_supported arg_focus
      = ALL_FUNCS.filter (fun t => should_run t isas_supported arg_focus) := by
  simpa using foldl_pushback_eq_filter
    (fun t => should_run t isas_supported arg_focus) ALL_FUNCS []

theorem ALL_FUNCS_nodup : ALL_FUNCS.Nodup := by decide

/-- C2 — For every kernel descriptor `t` and detected capability set,
`t` is selected iff `(t.isa & isas) != 0` and, when a focus identifier is
set, the focus equals `t.id`; an AVX512-only kernel is never selected under
capabilities `{BASE, AVX2}`; a focus identifier matching no kernel in the
registry yields an empty selection. -/
theorem should_run_iff_and_filter_empty :
    (∀ (t : test_func) (isas : Nat) (focus : Option String),
        should_run t isas focus = true ↔
          (t.isa &&& isas ≠ 0 ∧ (focus = none ∨ focus = some t.id)))
    ∧ (∀ (t : test_func) (focus : Option String),
        t.isa = AVX512 → should_run t (BASE ||| AVX2) focus = false)
    ∧ (∀ (isas : Nat) (s : String),
        (∀ t ∈ ALL_FUNCS, t.id ≠ s) → filter_tests isas (some s) = []) := by
  refine ⟨?_, ?_, ?_⟩
  · intro t isas focus
    cases focus with
    | none => simp [should_run]
    | some s => simp [should_run]
  · intro t focus hisa
    have h : t.isa &&& (BASE ||| AVX2) = 0 := by rw [hisa]; decide
    simp [should_run, h]
  · intro isas s hs
    rw [filter_tests_eq_filter]
    rw [List.filter_eq_nil_iff]
    intro t ht
    have hne := hs t ht
    simp [should_run]
    exact fun _ h => hne h.symm

/-- Witness for C2: the AVX512 kernel of the registry is rejected under
capabilities `BASE ||| AVX2 = 3`, and the focus string "no_such_test"
matches no kernel so the selection is empty. -/
theorem should_run_iff_and_filter_empty_witness :
    should_run ⟨KernelFn.avx512_iadd, "avx512_iadd", "512-bit integer adds", AVX512⟩
        (BASE ||| AVX2) none = false
    ∧ filter_tests 7 (some "no_such_test") = [] := by
  constructor
  · exact should_run_iff_and_filter_empty.2.1 _ none rfl
  · exact should_run_iff_and_filter_empty.2.2 7 "no_such_test" (by decide)

/-- C10 — For every capability set and focus setting, the filtered test
list is a sublist of the registry `ALL_FUNCS` (hence preserves its order)
and contains no duplicates (each descriptor at most once). -/
theorem filter_tests_sublist_nodup (isas : Nat) (focus : Option String) :
    List.Sublist (filter_tests isas focus) ALL_FUNCS
    ∧ (filter_tests isas focus).Nodup := by
  rw [filter_tests_eq_filter]
  exact ⟨List.filter_sublist ALL_FUNCS,
    List.Nodup.sublist (List.filter_sublist ALL_FUNCS) ALL_FUNCS_nodup⟩

theorem sub64_of_le {x y : Nat} (hyx : y ≤ x) (hx : x < U64) : sub64 x y = x - y := by
  have hy : y < U64 := lt_of_le_of_lt hyx hx
  unfold sub64
  rw [Nat.mod_eq_of_lt hx, Nat.mod_eq_of_lt hy]
  have h1 : U64 + x - y = U64 + (x - y) := by omega
  rw [h1, Nat.add_mod_left, Nat.mod_eq_of_lt (by omega)]

/-- C3 — The probe is a two-state machine: `start` succeeds exactly from
STOPPED (capturing the three readings, moving to STARTED) and fails the
assertion from STARTED; `stop` succeeds exactly from STARTED (overwriting
each field with the wrap-around delta reading − stored, moving to STOPPED)
and fails the assertion when no `start` preceded it; each ratio accessor
fails the assertion while STARTED, or when one of its accumulated deltas
is zero. -/
theorem aperf_ghz_state_machine :
    ∀ (p : aperf_ghz) (m a t : Nat),
      (p.state = ProbeState.STARTED → p.start m a t = none)
      ∧ (p.state = ProbeState.STOPPED →
          p.start m a t = some ⟨m, a, t, ProbeState.STARTED⟩)
      ∧ (p.state = ProbeState.STOPPED → p.stop m a t = none)
      ∧ (p.state = ProbeState.STARTED →
          p.stop m a t = some ⟨sub64 m p.mperf_value, sub64 a p.aperf_value,
            sub64 t p.tsc_value, ProbeState.STOPPED⟩)
      ∧ (p.state = ProbeState.STARTED → p.am_ratio = none ∧ p.mt_ratio = none)
      ∧ (p.mperf_value = 0 ∨ p.aperf_value = 0 → p.am_ratio = none)
      ∧ (p.mperf_value = 0 ∨ p.tsc_value = 0 → p.mt_ratio = none) := by
  intro p m a t
  refine ⟨?_, ?_, ?_, ?_, ?_, ?_, ?_⟩
  · intro h
    simp [aperf_ghz.start, h]
  · intro h
    simp [aperf_ghz.start, h]
  · intro h
    simp [aperf_ghz.stop, h]
  · intro h
    simp [aperf_ghz.stop, h]
  · intro h
    constructor
    · simp [aperf_ghz.am_ratio, h]
    · simp [aperf_ghz.mt_ratio, h]
  · intro h
    rcases h with h | h <;> simp [aperf_ghz.am_ratio, h]
  · intro h
    rcases h with h | h <;> simp [aperf_ghz.mt_ratio, h]

/-- Witness for C3 at concrete probes: `stop` on the freshly constructed
(STOPPED) probe fails; `start` then `stop` with concrete readings produces
the deltas; the accessors fail while STARTED and on a zero delta. -/
theorem aperf_ghz_state_machine_witness :
    aperf_ghz.init.stop 5 6 7 = none
    ∧ aperf_ghz.init.start 10 20 30
        = some ⟨10, 20, 30, ProbeState.STARTED⟩
    ∧ aperf_ghz.stop ⟨10, 20, 30, ProbeState.STARTED⟩ 13 24 35
        = some ⟨3, 4, 5, ProbeState.STOPPED⟩
    ∧ aperf_ghz.am_ratio ⟨10, 20, 30, ProbeState.STARTED⟩ = none
    ∧ aperf_ghz.am_ratio ⟨0, 4, 5, ProbeState.STOPPED⟩ = none := by
  have h1 := (aperf_ghz_state_machine aperf_ghz.init 5 6 7).2.2.1 rfl
  have h2 := (aperf_ghz_state_machine aperf_ghz.init 10 20 30).2.1 rfl
  have h3 := (aperf_ghz_state_machine ⟨10, 20, 30, ProbeState.STARTED⟩ 13 24 35).2.2.2.1 rfl
  have h4 := ((aperf_ghz_state_machine ⟨10, 20, 30, ProbeState.STARTED⟩ 0 0 0).2.2.2.2.1 rfl).1
  have h5 := (aperf_ghz_state_machine (⟨0, 4, 5, ProbeState.STOPPED⟩ : aperf_ghz) 0 0 0).2.2.2.2.2.1
    (Or.inl rfl)
  refine ⟨h1, h2, ?_, h4, h5⟩
  rw [h3]
  have e1 : sub64 13 10 = 3 := sub64_of_le (by omega) (by unfold U64; omega)
  have e2 : sub64 24 20 = 4 := sub64_of_le (by omega) (by unfold U64; omega)
  have e3 : sub64 35 30 = 5 := sub64_of_le (by omega) (by unfold U64; omega)
  rw [e1, e2, e3]

/-- C4 — In STOPPED state with the relevant deltas nonzero, `am_ratio`
returns APERF-delta / MPERF-delta and `mt_ratio` returns
MPERF-delta / TSC-delta. -/
theorem aperf_ghz_ratio_values :
    ∀ p : aperf_ghz, p.state = ProbeState.STOPPED →
      (p.mperf_value ≠ 0 → p.aperf_value ≠ 0 →
        p.am_ratio = some ((p.aperf_value : ℚ) / (p.mperf_value : ℚ)))
      ∧ (p.mperf_value ≠ 0 → p.tsc_value ≠ 0 →
        p.mt_ratio = some ((p.mperf_value : ℚ) / (p.tsc_value : ℚ))) := by
  intro p hs
  constructor
  · intro h1 h2
    simp [aperf_ghz.am_ratio, hs, h1, h2]
  · intro h1 h2
    simp [aperf_ghz.mt_ratio, hs, h1, h2]

/-- Witness for C4: a STOPPED probe with deltas (2, 3, 8) yields
`am_ratio = 3/2` and `mt_ratio = 2/8 = 1/4`. -/
theorem aperf_ghz_ratio_values_witness :
    aperf_ghz.am_ratio ⟨2, 3, 8, ProbeState.STOPPED⟩ = some ((3 : ℚ) / 2)
    ∧ aperf_ghz.mt_ratio ⟨2, 3, 8, ProbeState.STOPPED⟩ = some ((2 : ℚ) / 8) := by
  have h := aperf_ghz_ratio_values ⟨2, 3, 8, ProbeState.STOPPED⟩ rfl
  exact ⟨h.1 (by decide) (by decide), h.2 (by decide) (by decide)⟩

/-- C5 — When the startup privilege detection fails (`is_root = false`) the
no-op timer is substituted and the reported ratios are the zero pair, with
no possibility of failure; the very same `use_aperf` flag that selected the
timer gates every ratio-accessor invocation, so the probe's accessors are
reached only when the real probe was selected. -/
theorem main_probe_gating :
    ∀ (is_root : Bool) (p : aperf_ghz),
      (is_root = false → main_select_timer (main_use_aperf is_root) = SelectedTimer.dummy)
      ∧ (main_select_timer (main_use_aperf is_root) = SelectedTimer.dummy →
          main_row_ratios (main_use_aperf is_root) p = some (0, 0))
      ∧ (main_select_timer (main_use_aperf is_root) = SelectedTimer.aperf ↔
          main_use_aperf is_root = true)
      ∧ (main_select_timer (main_use_aperf is_root) = SelectedTimer.aperf →
          p.state = ProbeState.STOPPED → p.mperf_value ≠ 0 → p.aperf_value ≠ 0 →
          p.tsc_value ≠ 0 →
          main_row_ratios (main_use_aperf is_root) p
            = some ((p.aperf_value : ℚ) / (p.mperf_value : ℚ),
                    (p.mperf_value : ℚ) / (p.tsc_value : ℚ))) := by
  intro is_root p
  cases is_root with
  | false =>
    refine ⟨fun _ => rfl, fun _ => rfl, by simp [main_select_timer, main_use_aperf], ?_⟩
    intro h
    exact absurd h (by simp [main_select_timer, main_use_aperf])
  | true =>
    refine ⟨fun h => absurd h (by simp), ?_, by simp [main_select_timer, main_use_aperf], ?_⟩
    · intro h
      exact absurd h (by simp [main_select_timer, main_use_aperf])
    · intro _ hs h1 h2 h3
      have ham := (aperf_ghz_ratio_values p hs).1 h1 h2
      have hmt := (aperf_ghz_ratio_values p hs).2 h1 h3
      simp [main_row_ratios, main_use_aperf, ham, hmt]

/-- Witness for C5: an unprivileged run selects the dummy timer and reports
the zero ratio pair even on a freshly constructed probe. -/
theorem main_probe_gating_witness :
    main_select_timer (main_use_aperf false) = SelectedTimer.dummy
    ∧ main_row_ratios (main_use_aperf false) aperf_ghz.init = some (0, 0) := by
  have h := main_probe_gating false aperf_ghz.init
  exact ⟨h.1 rfl, h.2.1 (h.1 rfl)⟩

/-- C7 — A command-line iteration count that is a multiple of 100 is
accepted (exit status 0, no failure exit in the trace); any other count
makes the process print the diagnostic and exit with status 1, its trace
containing no hardware or timing action whatsoever. -/
theorem main_iters_validation :
    ∀ (n : Nat) (is_root : Bool) (isas : Nat) (focus : Option String),
      (n % 100 = 0 →
        main_exit_code n = 0
        ∧ MainAction.exitFailure ∉ main_actions n is_root isas focus)
      ∧ (n % 100 ≠ 0 →
        main_exit_code n = 1
        ∧ main_actions n is_root isas focus
            = [MainAction.printMsg "ITERS must be a multiple of 100", MainAction.exitFailure]
        ∧ ∀ a ∈ main_actions n is_root isas focus, a.is_hardware = false) := by
  intro n is_root isas focus
  constructor
  · intro h
    refine ⟨by simp [main_exit_code, h], ?_⟩
    simp [main_actions, h]
  · intro h
    refine ⟨by simp [main_exit_code, h], by simp [main_actions, h], ?_⟩
    simp [main_actions, h]
    exact ⟨rfl, rfl⟩

/-- Witness for C7: N = 100 and N = 100000 are accepted; N = 150 exits with
status 1 after only the diagnostic, with no hardware action. -/
theorem main_iters_validation_witness :
    (main_exit_code 100 = 0 ∧ MainAction.exitFailure ∉ main_actions 100 false 7 none)
    ∧ (main_exit_code 100000 = 0
        ∧ MainAction.exitFailure ∉ main_actions 100000 false 7 none)
    ∧ (main_exit_code 150 = 1
        ∧ main_actions 150 false 7 none
            = [MainAction.printMsg "ITERS must be a multiple of 100", MainAction.exitFailure]
        ∧ ∀ a ∈ main_actions 150 false 7 none, a.is_hardware = false) :=
  ⟨(main_iters_validation 100 false 7 none).1 (by decide),
   (main_iters_validation 100000 false 7 none).1 (by decide),
   (main_iters_validation 150 false 7 none).2 (by decide)⟩

/-- C8 — The cached scale factor is exactly `10^9 / freq`; it is computed
by the first call and every later call leaves the cache untouched and
returns the same value a fresh computation would; converting a delta of
exactly `freq` ticks yields exactly 1,000,000,000 nanoseconds. -/
theorem to_nanos_scale_cached :
    ∀ (freq d d2 : Nat),
      (RdtscClock.scale_factor freq = (1000000000 : ℚ) / (freq : ℚ)
        ∧ (RdtscClock.to_nanos freq ⟨none⟩ d).2 = ⟨some (RdtscClock.scale_factor freq)⟩)
      ∧ ((RdtscClock.to_nanos freq ((RdtscClock.to_nanos freq ⟨none⟩ d).2) d2).2
            = (RdtscClock.to_nanos freq ⟨none⟩ d).2
        ∧ (RdtscClock.to_nanos freq ((RdtscClock.to_nanos freq ⟨none⟩ d).2) d2).1
            = (RdtscClock.to_nanos freq ⟨none⟩ d2).1)
      ∧ (freq ≠ 0 → (RdtscClock.to_nanos freq ⟨none⟩ freq).1 = 1000000000) := by
  intro freq d d2
  refine ⟨⟨rfl, rfl⟩, ⟨rfl, rfl⟩, ?_⟩
  intro hf
  have hcast : (freq : ℚ) ≠ 0 := by
    exact_mod_cast hf
  have hval : (freq : ℚ) * RdtscClock.scale_factor freq = (1000000000 : ℚ) := by
    unfold RdtscClock.scale_factor
    field_simp
  simp only [RdtscClock.to_nanos, hval]
  rfl

/-- Witness for C8: with a calibrated frequency of 3 Hz, converting a delta
of 3 ticks yields exactly 10^9 nanoseconds. -/
theorem to_nanos_scale_cached_witness :
    (RdtscClock.to_nanos 3 ⟨none⟩ 3).1 = 1000000000 :=
  (to_nanos_scale_cached 3 0 0).2.2 (by decide)

/-! ## Loop characterizations -/

theorem inner_loop_snd (ticks : Nat → Nat) (base : Nat) :
    ∀ (cnt r : Nat) (results : List Nat) (evs : List TimerEvent),
      (inner_loop ticks base r cnt results evs).2
        = evs ++ List.replicate cnt TimerEvent.trial := by
  intro cnt
  induction cnt with
  | zero => intro r results evs; simp [inner_loop]
  | succ c ih =>
    intro r results evs
    rw [inner_loop, ih]
    simp [List.replicate_succ]

theorem inner_loop_fst_length (ticks : Nat → Nat) (base : Nat) :
    ∀ (cnt r : Nat) (results : List Nat) (evs : List TimerEvent),
      (inner_loop ticks base r cnt results evs).1.length = results.length := by
  intro cnt
  induction cnt with
  | zero => intro r results evs; simp [inner_loop]
  | succ c ih =>
    intro r results evs
    rw [inner_loop, ih]
    exact List.length_set results r _

theorem inner_loop_fst_getElem (ticks : Nat → Nat) (base : Nat) :
    ∀ (cnt r : Nat) (results : List Nat) (evs : List TimerEvent) (i : Nat),
      (inner_loop ticks base r cnt results evs).1[i]?
        = if r ≤ i ∧ i < r + cnt ∧ i < results.length
          then some (trial_delta ticks (base + 3 * i))
          else results[i]? := by
  intro cnt
  induction cnt with
  | zero =>
    intro r results evs i
    rw [inner_loop]
    have h : ¬(r ≤ i ∧ i < r + 0 ∧ i < results.length) := by omega
    rw [if_neg h]
  | succ c ih =>
    intro r results evs i
    rw [inner_loop, ih]
    rw [List.length_set]
    by_cases hir : i = r
    · subst hir
      have h1 : ¬(i + 1 ≤ i ∧ i < i + 1 + c ∧ i < results.length) := by omega
      rw [if_neg h1, List.getElem?_set]
      by_cases h2 : i < results.length
      · rw [if_pos rfl, if_pos h2, if_pos (by omega)]
      · rw [if_pos rfl, if_neg h2, if_neg (by omega), List.getElem?_eq_none (by omega)]
    · have hcond : (i + 1 ≤ i ∨ r ≤ i) → ((r + 1 ≤ i ∧ i < r + 1 + c ∧ i < results.length)
          ↔ (r ≤ i ∧ i < r + (c + 1) ∧ i < results.length)) := by
        omega
      rw [List.getElem?_set, if_neg (by omega : ¬ r = i)]
      by_cases h3 : r + 1 ≤ i ∧ i < r + 1 + c ∧ i < results.length
      · rw [if_pos h3, if_pos (by omega)]
      · rw [if_neg h3, if_neg (by omega)]

theorem pass_deltas_getElem (ticks : Nat → Nat) (TR w i : Nat) :
    (pass_deltas ticks TR w)[i]?
      = if i < TR then some (trial_delta ticks (3 * TR * w + 3 * i)) else none := by
  unfold pass_deltas
  by_cases h : i < TR
  · rw [if_pos h, List.getElem?_map, List.getElem?_range h]
    rfl
  · rw [if_neg h, List.getElem?_eq_none]
    simp
    omega

theorem inner_loop_fst_eq (ticks : Nat → Nat) (TR w : Nat) (results : List Nat)
    (evs : List TimerEvent) (hlen : results.length = TR) :
    (inner_loop ticks (3 * TR * w) 0 TR results evs).1 = pass_deltas ticks TR w := by
  apply List.ext_getElem?
  intro i
  rw [inner_loop_fst_getElem, pass_deltas_getElem, hlen]
  by_cases h : i < TR
  · rw [if_pos (by omega), if_pos h]
  · rw [if_neg (by omega), if_neg h, List.getElem?_eq_none (by omega)]

theorem pass_deltas_length (ticks : Nat → Nat) (TR w : Nat) :
    (pass_deltas ticks TR w).length = TR := by
  simp [pass_deltas]

/-- Results and event trace of `run_passes`, for an arbitrary timer: if the
passes complete, the surviving results are exactly the deltas written by
the final pass (every earlier pass's writes having been overwritten), and
the event trace appends one `pass_events` bracket per pass. -/
theorem run_passes_spec {σ : Type} (T : outer_timer σ) (ticks : Nat → Nat) (TR : Nat) :
    ∀ (wrem w : Nat) (results : List Nat) (s : σ) (evs : List TimerEvent)
      (res : List Nat) (s1 : σ) (evs1 : List TimerEvent),
      results.length = TR →
      run_passes T ticks TR wrem w results s evs = some (res, s1, evs1) →
      res = (if wrem = 0 then results else pass_deltas ticks TR (w + wrem - 1))
      ∧ evs1 = evs ++ (List.replicate wrem (pass_events TR)).flatten := by
  intro wrem
  induction wrem with
  | zero =>
    intro w results s evs res s1 evs1 hlen h
    rw [run_passes] at h
    injection h with h
    injection h with h1 h
    injection h with h2 h3
    subst h1
    subst h3
    simp
  | succ c ih =>
    intro w results s evs res s1 evs1 hlen h
    rw [run_passes] at h
    cases hs : T.start s with
    | none => rw [hs] at h; exact absurd h (by simp)
    | some st1 =>
      rw [hs] at h
      simp only at h
      cases hp : T.stop st1 with
      | none => rw [hp] at h; exact absurd h (by simp)
      | some st2 =>
        rw [hp] at h
        simp only at h
        have hlen2 : (inner_loop ticks (3 * TR * w) 0 TR results
            (evs ++ [TimerEvent.tstart])).1.length = TR := by
          rw [inner_loop_fst_length]; exact hlen
        have := ih (w + 1) _ st2 _ res s1 evs1 hlen2 h
        rcases this with ⟨h1, h2⟩
        constructor
        · rw [h1]
          cases c with
          | zero =>
            rw [if_pos rfl, if_neg (by omega)]
            rw [inner_loop_fst_eq ticks TR w results _ hlen]
            have he : w + (0 + 1) - 1 = w := by omega
            rw [he]
          | succ c2 =>
            rw [if_neg (by omega), if_neg (by omega)]
            congr 1
            omega
        · rw [h2, inner_loop_snd]
          simp [pass_events, List.replicate_succ]

theorem run_passes_dummy_isSome (ticks : Nat → Nat) (TR : Nat) :
    ∀ (wrem w : Nat) (results : List Nat) (evs : List TimerEvent),
      ∃ out, run_passes dummy_outer ticks TR wrem w results () evs = some out := by
  intro wrem
  induction wrem with
  | zero =>
    intro w results evs
    exact ⟨_, rfl⟩
  | succ c ih =>
    intro w results evs
    rw [run_passes]
    simp only [dummy_outer]
    exact ih (w + 1) _ _

/-- `run_test` with the dummy outer timer, in closed form: the assertion
passes for any multiple of 100, the returned figure is
`iters / median(to_nanos(final-pass deltas))`, and the event trace is
`WARMUP + 1` bracketed passes. -/
theorem run_test_dummy_eq (ticks to_nanos_f : Nat → Nat) (func : KernelFn) (iters : Nat)
    (h : iters % 100 = 0) :
    run_test dummy_outer ticks to_nanos_f TRIES WARMUP func iters ()
      = some ((iters : ℚ) / median ((pass_deltas ticks TRIES WARMUP).map to_nanos_f), (),
          (List.replicate (WARMUP + 1) (pass_events TRIES)).flatten) := by
  cases hsome : run_passes dummy_outer ticks TRIES (WARMUP + 1) 0 (List.replicate TRIES 0) () []
    with
  | none =>
    obtain ⟨out, hout⟩ := run_passes_dummy_isSome ticks TRIES (WARMUP + 1) 0
      (List.replicate TRIES 0) []
    rw [hsome] at hout
    exact absurd hout (by simp)
  | some out =>
    obtain ⟨res, s1, evs1⟩ := out
    cases s1
    have hspec := run_passes_spec dummy_outer ticks TRIES (WARMUP + 1) 0
      (List.replicate TRIES 0) () [] res () evs1 (by simp) hsome
    rcases hspec with ⟨h1, h2⟩
    rw [run_test, if_pos h, hsome, h1, h2]
    rw [if_neg (by decide : ¬ (WARMUP + 1 = 0))]
    have he : 0 + (WARMUP + 1) - 1 = WARMUP := by decide
    rw [he]
    simp

/-- Evolution of the `aperf_ghz` probe under `run_passes`: starting in
STOPPED state at probe-event index `k`, the passes all complete and the
probe ends STOPPED, holding exactly the counter deltas of the final
pass's bracket (events `k + 2*wrem - 2` and `k + 2*wrem - 1`),
independently of the values it held before. -/
theorem run_passes_aperf_state (mtr atr ttr ticks : Nat → Nat) (TR : Nat) :
    ∀ (wrem w : Nat) (results : List Nat) (evs : List TimerEvent) (k x y z : Nat),
      ∃ res evs1,
        run_passes (aperf_outer mtr atr ttr) ticks TR wrem w results
            ((⟨x, y, z, ProbeState.STOPPED⟩ : aperf_ghz), k) evs
          = some (res,
              ((if wrem = 0 then (⟨x, y, z, ProbeState.STOPPED⟩ : aperf_ghz)
                else aperf_bracket mtr atr ttr (k + 2 * wrem - 2)), k + 2 * wrem),
              evs1) := by
  intro wrem
  induction wrem with
  | zero =>
    intro w results evs k x y z
    exact ⟨results, evs, by rw [run_passes]; simp⟩
  | succ c ih =>
    intro w results evs k x y z
    obtain ⟨res, evs1, hrec⟩ := ih (w + 1)
      (inner_loop ticks (3 * TR * w) 0 TR results (evs ++ [TimerEvent.tstart])).1
      ((inner_loop ticks (3 * TR * w) 0 TR results (evs ++ [TimerEvent.tstart])).2
        ++ [TimerEvent.tstop])
      (k + 2) (sub64 (mtr (k + 1)) (mtr k)) (sub64 (atr (k + 1)) (atr k))
      (sub64 (ttr (k + 1)) (ttr k))
    refine ⟨res, evs1, ?_⟩
    rw [run_passes]
    simp only [aperf_outer, aperf_ghz.start, aperf_ghz.stop, reduceIte, Option.map_some']
    simp only [aperf_outer, aperf_ghz.start, aperf_ghz.stop, reduceIte, Option.map_some'] at hrec
    rw [hrec]
    cases c with
    | zero =>
      have he1 : k + 2 * (0 + 1) - 2 = k := by omega
      rw [he1]
      rfl
    | succ c2 =>
      have he1 : k + 2 + 2 * (c2 + 1) - 2 = k + 2 * (c2 + 1 + 1) - 2 := by omega
      have he2 : k + 2 + 2 * (c2 + 1) = k + 2 * (c2 + 1 + 1) := by omega
      rw [if_neg (by omega : ¬ (c2 + 1 = 0)), if_neg (by omega : ¬ (c2 + 1 + 1 = 0)), he1, he2]

/-- C1 — The overhead-cancellation timer at its instantiation
(TRIES = 101, WARMUP = 3): for every kernel, every iteration count that is
a multiple of 100 and every probe, whenever `run_test` completes, the
figure it returns is `iters` divided by the median of the nanosecond
conversions of the 101 stored trial deltas, where the delta of trial `r`
is `(t2 - t1) - (t1 - t0)` for the three consecutive `CLOCK::now()`
readings `t0, t1, t2` bracketing the trial's calls of `func(iters)` and
`func(iters * 2)` (the readings of the final pass, whose trial `r` starts
at clock reading `3 * 101 * 3 + 3 * r`). -/
theorem run_test_overhead_cancellation :
    ∀ (σ : Type) (T : outer_timer σ) (s : σ) (ticks to_nanos_f : Nat → Nat)
      (func : KernelFn) (iters : Nat) (g : ℚ) (s1 : σ) (evs : List TimerEvent),
      iters % 100 = 0 →
      run_test T ticks to_nanos_f TRIES WARMUP func iters s = some (g, s1, evs) →
      g = (iters : ℚ) / median (((List.range 101).map
            (fun r => sub64 (sub64 (ticks (3 * 101 * 3 + 3 * r + 2)) (ticks (3 * 101 * 3 + 3 * r + 1)))
              (sub64 (ticks (3 * 101 * 3 + 3 * r + 1)) (ticks (3 * 101 * 3 + 3 * r))))).map to_nanos_f) := by
  intro σ T s ticks to_nanos_f func iters g s1 evs hmod hrun
  rw [run_test, if_pos hmod] at hrun
  cases hsome : run_passes T ticks TRIES (WARMUP + 1) 0 (List.replicate TRIES 0) s [] with
  | none =>
    rw [hsome] at hrun
    exact absurd hrun (by simp)
  | some out =>
    obtain ⟨res, st1, evs1⟩ := out
    rw [hsome] at hrun
    simp only [Option.some.injEq, Prod.mk.injEq] at hrun
    obtain ⟨hg, _, _⟩ := hrun
    have hspec := run_passes_spec T ticks TRIES (WARMUP + 1) 0 (List.replicate TRIES 0) s []
      res st1 evs1 (by simp) hsome
    rcases hspec with ⟨h1, _⟩
    rw [if_neg (by decide : ¬ (WARMUP + 1 = 0))] at h1
    have he : 0 + (WARMUP + 1) - 1 = WARMUP := by decide
    rw [he] at h1
    rw [← hg, h1]
    rfl

/-- Witness for C1: with the identity tick trace and identity nanosecond
conversion, iteration count 100, and the dummy probe, the figure returned
by `run_test` is 100 divided by the median of the final pass's converted
deltas. -/
theorem run_test_overhead_cancellation_witness :
    (100 : ℚ) / median ((pass_deltas (fun k => k) TRIES WARMUP).map (fun d => d))
      = (100 : ℚ) / median (((List.range 101).map
          (fun r => sub64 (sub64 ((fun k => k) (3 * 101 * 3 + 3 * r + 2)) ((fun k => k) (3 * 101 * 3 + 3 * r + 1)))
            (sub64 ((fun k => k) (3 * 101 * 3 + 3 * r + 1)) ((fun k => k) (3 * 101 * 3 + 3 * r))))).map (fun d => d)) := by
  have happ := run_test_overhead_cancellation Unit dummy_outer () (fun k => k) (fun d => d)
    KernelFn.scalar_iadd 100
    ((100 : ℚ) / median ((pass_deltas (fun k => k) TRIES WARMUP).map (fun d => d)))
    ()
    ((List.replicate (WARMUP + 1) (pass_events TRIES)).flatten)
    (by decide)
    (run_test_dummy_eq (fun k => k) (fun d => d) KernelFn.scalar_iadd 100 (by decide))
  exact happ

/-- C6 — `run_test` at its instantiation performs exactly WARMUP + 1 = 4
outer passes, each consisting of one `probe.start()`, the 101 trials, and
one `probe.stop()` (the event trace is four copies of that bracket); when
the probe starts STOPPED at event index `k`, the run completes and the
probe's final stored fields are the deltas of the final (fourth) pass's
bracket alone — the state produced by a single `start`/`stop` bracket at
events `k + 6` and `k + 7` — regardless of what the probe held before. -/
theorem run_test_probe_final_pass :
    ∀ (mtr atr ttr ticks to_nanos_f : Nat → Nat) (func : KernelFn) (iters k x y z : Nat),
      iters % 100 = 0 →
      ∃ g : ℚ,
        run_test (aperf_outer mtr atr ttr) ticks to_nanos_f TRIES WARMUP func iters
            ((⟨x, y, z, ProbeState.STOPPED⟩ : aperf_ghz), k)
          = some (g, (aperf_bracket mtr atr ttr (k + 6), k + 8),
              (List.replicate (WARMUP + 1) (pass_events TRIES)).flatten)
        ∧ (aperf_ghz.start (⟨x, y, z, ProbeState.STOPPED⟩ : aperf_ghz)
              (mtr (k + 6)) (atr (k + 6)) (ttr (k + 6))).bind
            (fun p => p.stop (mtr (k + 7)) (atr (k + 7)) (ttr (k + 7)))
          = some (aperf_bracket mtr atr ttr (k + 6)) := by
  intro mtr atr ttr ticks to_nanos_f func iters k x y z hmod
  obtain ⟨res, evs1, hrun⟩ := run_passes_aperf_state mtr atr ttr ticks TRIES (WARMUP + 1) 0
    (List.replicate TRIES 0) [] k x y z
  have hspec := run_passes_spec (aperf_outer mtr atr ttr) ticks TRIES (WARMUP + 1) 0
    (List.replicate TRIES 0) _ [] res _ evs1 (by simp) hrun
  rcases hspec with ⟨h1, h2⟩
  refine ⟨(iters : ℚ) / median (res.map to_nanos_f), ?_, ?_⟩
  · rw [run_test, if_pos hmod, hrun]
    rw [if_neg (by decide : ¬ (WARMUP + 1 = 0))]
    have he1 : k + 2 * (WARMUP + 1) - 2 = k + 6 := by show k + 2 * (3 + 1) - 2 = k + 6; omega
    have he2 : k + 2 * (WARMUP + 1) = k + 8 := by show k + 2 * (3 + 1) = k + 8; omega
    rw [he1, he2, h2]
    simp
  · simp [aperf_ghz.start, aperf_ghz.stop, aperf_bracket]

/-- Witness for C6 at a concrete input: identity counter and tick traces,
iteration count 100, probe initially STOPPED holding zeros at event
index 0. -/
theorem run_test_probe_final_pass_witness :
    ∃ g : ℚ,
      run_test (aperf_outer (fun j => j) (fun j => j) (fun j => j)) (fun j => j) (fun d => d)
          TRIES WARMUP KernelFn.scalar_iadd 100
          ((⟨0, 0, 0, ProbeState.STOPPED⟩ : aperf_ghz), 0)
        = some (g, (aperf_bracket (fun j => j) (fun j => j) (fun j => j) (0 + 6), 0 + 8),
            (List.replicate (WARMUP + 1) (pass_events TRIES)).flatten)
      ∧ (aperf_ghz.start (⟨0, 0, 0, ProbeState.STOPPED⟩ : aperf_ghz)
            ((fun j => j) (0 + 6)) ((fun j => j) (0 + 6)) ((fun j => j) (0 + 6))).bind
          (fun p => p.stop ((fun j => j) (0 + 7)) ((fun j => j) (0 + 7)) ((fun j => j) (0 + 7)))
        = some (aperf_bracket (fun j => j) (fun j => j) (fun j => j) (0 + 6)) :=
  run_test_probe_final_pass (fun j => j) (fun j => j) (fun j => j) (fun j => j) (fun d => d)
    KernelFn.scalar_iadd 100 0 0 0 0 (by decide)

/-! ## Positivity of the returned figure (C9) -/

theorem median_pos (l : List Nat) (hodd : l.length % 2 = 1) (hpos : ∀ x ∈ l, 0 < x) :
    0 < median l := by
  unfold median
  rw [if_pos hodd]
  have hlen : (List.insertionSort (fun a b => a ≤ b) l).length = l.length :=
    List.length_insertionSort _ l
  have hidx : l.length / 2 < (List.insertionSort (fun a b => a ≤ b) l).length := by
    rw [hlen]; omega
  rw [List.getD_eq_getElem _ _ hidx]
  have hmem : (List.insertionSort (fun a b => a ≤ b) l)[l.length / 2] ∈ l := by
    have h1 : (List.insertionSort (fun a b => a ≤ b) l)[l.length / 2]
        ∈ List.insertionSort (fun a b => a ≤ b) l := List.getElem_mem hidx
    exact (List.Perm.mem_iff (List.perm_insertionSort _ l)).1 h1
  have := hpos _ hmem
  exact_mod_cast this

theorem kernel_ticks_at (T : Nat → Nat) (iters m : Nat) :
    kernel_ticks T iters (3 * m) = m * (T iters + T (2 * iters))
    ∧ kernel_ticks T iters (3 * m + 1) = m * (T iters + T (2 * iters)) + T iters
    ∧ kernel_ticks T iters (3 * m + 2) = (m + 1) * (T iters + T (2 * iters)) := by
  unfold kernel_ticks
  have h1 : 3 * m / 3 = m := by omega
  have h2 : 3 * m % 3 = 0 := by omega
  have h3 : (3 * m + 1) / 3 = m := by omega
  have h4 : (3 * m + 1) % 3 = 1 := by omega
  have h5 : (3 * m + 2) / 3 = m := by omega
  have h6 : (3 * m + 2) % 3 = 2 := by omega
  rw [h1, h2, h3, h4, h5, h6]
  norm_num
  ring

/-- The delta stored by any trial under the exact-kernel-time tick trace is
the kernel's extra running time `T (2 * iters) - T iters`, provided the
accumulated times stay below 2^64. -/
theorem kernel_trial_delta (T : Nat → Nat) (iters m : Nat)
    (hmn : T iters ≤ T (2 * iters))
    (hb : (m + 1) * (T iters + T (2 * iters)) < U64) :
    trial_delta (kernel_ticks T iters) (3 * m) = T (2 * iters) - T iters := by
  obtain ⟨e0, e1, e2⟩ := kernel_ticks_at T iters m
  unfold trial_delta
  rw [e0, e1, e2]
  have hsucc : (m + 1) * (T iters + T (2 * iters))
      = m * (T iters + T (2 * iters)) + (T iters + T (2 * iters)) := by ring
  have h1tt : T iters + T (2 * iters) ≤ (m + 1) * (T iters + T (2 * iters)) :=
    Nat.le_mul_of_pos_left _ (by omega)
  have hA : (m + 1) * (T iters + T (2 * iters)) - (m * (T iters + T (2 * iters)) + T iters)
      = T (2 * iters) := by omega
  have hB : m * (T iters + T (2 * iters)) + T iters - m * (T iters + T (2 * iters))
      = T iters := by omega
  rw [@sub64_of_le ((m + 1) * (T iters + T (2 * iters)))
    (m * (T iters + T (2 * iters)) + T iters) (by omega) (by omega)]
  rw [@sub64_of_le (m * (T iters + T (2 * iters)) + T iters)
    (m * (T iters + T (2 * iters))) (by omega) (by omega)]
  rw [hA, hB, @sub64_of_le (T (2 * iters)) (T iters) hmn (by omega)]

/-- C9 — For every iteration count that is a multiple of 100 and every
kernel whose execution time `T` is (strictly) monotonically increasing in
the iteration count — timed with a faithful nanosecond conversion and
without 64-bit overflow over the run — the overhead-cancellation timer
completes and returns a strictly positive figure, and the median it
divides by is strictly positive (so the division is by a nonzero
quantity, i.e. the figure is finite). -/
theorem run_test_positive_throughput :
    ∀ (T to_nanos_f : Nat → Nat) (func : KernelFn) (iters : Nat),
      iters % 100 = 0 → 0 < iters → StrictMono T →
      404 * (T iters + T (2 * iters)) < U64 →
      (∀ d, 0 < d → 0 < to_nanos_f d) →
      0 < median ((pass_deltas (kernel_ticks T iters) TRIES WARMUP).map to_nanos_f)
      ∧ ∃ g evs,
          run_test dummy_outer (kernel_ticks T iters) to_nanos_f TRIES WARMUP func iters ()
            = some (g, (), evs)
          ∧ 0 < g := by
  intro T f func iters hmod hpos hmono hbound hf
  have hlt : T iters < T (2 * iters) := hmono (by omega)
  have hmedpos : 0 < median ((pass_deltas (kernel_ticks T iters) TRIES WARMUP).map f) := by
    apply median_pos
    · rw [List.length_map, pass_deltas_length]
      decide
    · intro x hx
      rw [List.mem_map] at hx
      obtain ⟨d, hd, hdx⟩ := hx
      rw [pass_deltas] at hd
      rw [List.mem_map] at hd
      obtain ⟨r, hr, hrd⟩ := hd
      rw [List.mem_range] at hr
      have hr2 : r < 101 := hr
      have hbase : 3 * TRIES * WARMUP + 3 * r = 3 * (303 + r) := by
        show 3 * 101 * 3 + 3 * r = 3 * (303 + r)
        omega
      rw [hbase] at hrd
      have hb : ((303 + r) + 1) * (T iters + T (2 * iters)) < U64 := by
        have hle : ((303 + r) + 1) * (T iters + T (2 * iters))
            ≤ 404 * (T iters + T (2 * iters)) := by
          apply Nat.mul_le_mul_right
          omega
        omega
      rw [kernel_trial_delta T iters (303 + r) (le_of_lt hlt) hb] at hrd
      rw [← hrd] at hdx
      rw [← hdx]
      apply hf
      omega
  refine ⟨hmedpos, _, _, run_test_dummy_eq (kernel_ticks T iters) f func iters hmod, ?_⟩
  apply div_pos
  · exact_mod_cast hpos
  · exact hmedpos

/-- Witness for C9: the identity kernel-time function (strictly monotone),
identity nanosecond conversion, iteration count 100. -/
theorem run_test_positive_throughput_witness :
    0 < median ((pass_deltas (kernel_ticks (fun n => n) 100) TRIES WARMUP).map (fun d => d))
    ∧ ∃ g evs,
        run_test dummy_outer (kernel_ticks (fun n => n) 100) (fun d => d) TRIES WARMUP
            KernelFn.scalar_iadd 100 ()
          = some (g, (), evs)
        ∧ 0 < g :=
  run_test_positive_throughput (fun n => n) (fun d => d) KernelFn.scalar_iadd 100
    (by decide) (by decide) strictMono_id
    (by show 404 * (100 + 200) < U64; unfold U64; norm_num)
    (fun d h => h)

end AvxTurbo
